import Mathlib

/-!
Verification of the Trakt TRMNL plugin transformation (src/plugin/transform.js).

The JavaScript function `transform` is shallowly embedded over an inductive
type of JavaScript values.  Fallible evaluation (property access on `null` or
`undefined`, calling `.map`/`.forEach` on a non-array) is modelled in the
`Except String` monad; the wall clock read by `new Date().toISOString()` is
passed in as the explicit parameter `now`.
-/

set_option autoImplicit false

namespace Trakt

/-- A JavaScript value, as far as this program manipulates them.  `NaN` is a
separate constructor so that numbers can stay exact rationals. -/
inductive Value where
  | null
  | undef
  | nan
  | bool (b : Bool)
  | num (q : ℚ)
  | str (s : String)
  | arr (elems : List Value)
  | obj (fields : List (String × Value))
  deriving Repr

/-- Is the value `null` or `undefined` (the two values on which property
access throws a TypeError)? -/
def nullish : Value → Bool
  | .null => true
  | Value.undef => true
  | _ => false

/-- JavaScript truthiness. -/
def truthy : Value → Bool
  | .null => false
  | Value.undef => false
  | .nan => false
  | .bool b => b
  | .num q => decide (q ≠ 0)
  | .str s => decide (s ≠ "")
  | .arr _ => true
  | .obj _ => true

/-- `a || b`. -/
def jsOr (a b : Value) : Value :=
  if truthy a then a else b

/-- Decimal rendering of a rational for template-literal interpolation.
Integral values (the only numbers the plugin interpolates into keys:
seasons, episode numbers, years) render exactly as in JavaScript; the
rendering of a non-integral rational is an injective approximation of the
JavaScript decimal expansion. -/
def ratToString (q : ℚ) : String :=
  if q.den = 1 then toString q.num
  else toString q.num ++ "/" ++ toString q.den

mutual

/-- JavaScript `ToString`, as used by template literals. -/
def jsToString : Value → String
  | .null => "null"
  | Value.undef => "undefined"
  | .nan => "NaN"
  | .bool true => "true"
  | .bool false => "false"
  | .num q => ratToString q
  | .str s => s
  | .arr xs => jsArrToString xs
  | .obj _ => "[object Object]"

/-- `Array.prototype.toString`: elements joined with a comma, with `null` and
`undefined` elements rendered as the empty string. -/
def jsArrToString : List Value → String
  | [] => ""
  | [Value.null] => ""
  | [Value.undef] => ""
  | [x] => jsToString x
  | Value.null :: xs => "," ++ jsArrToString xs
  | Value.undef :: xs => "," ++ jsArrToString xs
  | x :: xs => jsToString x ++ "," ++ jsArrToString xs

end

/-- JavaScript `ToNumber`, partially modelled: coercion of strings, arrays
and objects (unused by the program on realistic data and by every claim) is
mapped to `none`, i.e. `NaN`. -/
def toNumber : Value → Option ℚ
  | .null => some 0
  | .bool true => some 1
  | .bool false => some 0
  | .num q => some q
  | _ => none

/-- `Math.round`: round half towards positive infinity, which on rationals is
`round q = ⌊q + 1/2⌋`, matching Mathlib's `round`. -/
def mathRound (v : Value) : Value :=
  match toNumber v with
  | some q => .num ((round q : ℤ) : ℚ)
  | none => .nan

/-- JavaScript multiplication on the values this program multiplies. -/
def jsMul (a b : Value) : Value :=
  match toNumber a, toNumber b with
  | some x, some y => .num (x * y)
  | _, _ => .nan

/-- JavaScript division.  Division by zero yields an infinity in JavaScript,
not modelled here: the only divisor in the program is the literal `10`. -/
def jsDiv (a b : Value) : Value :=
  match toNumber a, toNumber b with
  | some x, some y => if y = 0 then .nan else .num (x / y)
  | _, _ => .nan

/-- Look a key up in an object's field list; a missing field reads as
`undefined`. -/
def lookupField (fields : List (String × Value)) (k : String) : Value :=
  match fields.lookup k with
  | some v => v
  | none => Value.undef

/-- Optional chaining `v?.k`: `undefined` when `v` is nullish, otherwise the
field (properties of primitives, such as `"s".length`, are not used by the
program and read as `undefined`). -/
def optField (v : Value) (k : String) : Value :=
  match v with
  | .obj fields => lookupField fields k
  | _ => Value.undef

/-- Plain property access `v.k`: throws a TypeError when `v` is nullish. -/
def getField (v : Value) (k : String) : Except String Value :=
  if nullish v then .error "TypeError" else .ok (optField v k)

/-- `item.k1?.k2`. -/
def access2 (item : Value) (k1 k2 : String) : Except String Value := do
  let a ← getField item k1
  pure (optField a k2)

/-- `item.k1?.k2?.k3`. -/
def access3 (item : Value) (k1 k2 k3 : String) : Except String Value := do
  let a ← getField item k1
  pure (optField (optField a k2) k3)

/-- Key for episode deduplication:
`` `${item.show?.title}-${item.episode?.season}-${item.episode?.number}` ``. -/
def getEpisodeKey (item : Value) : Except String String := do
  let t ← access2 item "show" "title"
  let s ← access2 item "episode" "season"
  let n ← access2 item "episode" "number"
  pure (jsToString t ++ "-" ++ jsToString s ++ "-" ++ jsToString n)

/-- Key for movie deduplication: `` `${item.movie?.title}-${item.movie?.year}` ``. -/
def getMovieKey (item : Value) : Except String String := do
  let t ← access2 item "movie" "title"
  let y ← access2 item "movie" "year"
  pure (jsToString t ++ "-" ++ jsToString y)

/-- Key for recommended-show deduplication: `` `${item.title}` ``. -/
def getShowKey (item : Value) : Except String String := do
  let t ← getField item "title"
  pure (jsToString t)

/-- The mapper of the in-progress episodes slot (IDX_0). -/
def episodesInProgressItem (item : Value) : Except String Value := do
  let showTitle ← access2 item "show" "title"
  let season ← access2 item "episode" "season"
  let number ← access2 item "episode" "number"
  let title ← access2 item "episode" "title"
  let progress ← getField item "progress"
  let pausedAt ← getField item "paused_at"
  let tmdb ← access3 item "show" "ids" "tmdb"
  pure (Value.obj [("type", .str "episode"), ("show", showTitle),
    ("season", season), ("episode", number), ("title", title),
    ("progress", mathRound progress), ("paused_at", pausedAt),
    ("tmdb_id", jsOr tmdb .null), ("media_type", .str "show")])

/-- The mapper of the in-progress movies slot (IDX_1). -/
def moviesInProgressItem (item : Value) : Except String Value := do
  let title ← access2 item "movie" "title"
  let year ← access2 item "movie" "year"
  let progress ← getField item "progress"
  let pausedAt ← getField item "paused_at"
  let tmdb ← access3 item "movie" "ids" "tmdb"
  pure (Value.obj [("type", .str "movie"), ("title", title), ("year", year),
    ("progress", mathRound progress), ("paused_at", pausedAt),
    ("tmdb_id", jsOr tmdb .null), ("media_type", .str "movie")])

/-- The mapper of the recently-watched episodes slot (IDX_2). -/
def recentEpisodesItem (item : Value) : Except String Value := do
  let showTitle ← access2 item "show" "title"
  let season ← access2 item "episode" "season"
  let number ← access2 item "episode" "number"
  let title ← access2 item "episode" "title"
  let watchedAt ← getField item "watched_at"
  let tmdb ← access3 item "show" "ids" "tmdb"
  pure (Value.obj [("type", .str "episode"), ("show", showTitle),
    ("season", season), ("episode", number), ("title", title),
    ("watched_at", watchedAt),
    ("tmdb_id", jsOr tmdb .null), ("media_type", .str "show")])

/-- The mapper of the recently-watched movies slot (IDX_3). -/
def recentMoviesItem (item : Value) : Except String Value := do
  let title ← access2 item "movie" "title"
  let year ← access2 item "movie" "year"
  let watchedAt ← getField item "watched_at"
  let tmdb ← access3 item "movie" "ids" "tmdb"
  pure (Value.obj [("type", .str "movie"), ("title", title), ("year", year),
    ("watched_at", watchedAt),
    ("tmdb_id", jsOr tmdb .null), ("media_type", .str "movie")])

/-- The mapper of the upcoming shows slot (IDX_4). -/
def upcomingShowsItem (item : Value) : Except String Value := do
  let showTitle ← access2 item "show" "title"
  let season ← access2 item "episode" "season"
  let number ← access2 item "episode" "number"
  let title ← access2 item "episode" "title"
  let firstAired ← getField item "first_aired"
  let tmdb ← access3 item "show" "ids" "tmdb"
  pure (Value.obj [("type", .str "episode"), ("show", showTitle),
    ("season", season), ("episode", number), ("title", title),
    ("airs_at", firstAired),
    ("tmdb_id", jsOr tmdb .null), ("media_type", .str "show")])

/-- The mapper of the upcoming movies slot (IDX_5). -/
def upcomingMoviesItem (item : Value) : Except String Value := do
  let title ← access2 item "movie" "title"
  let year ← access2 item "movie" "year"
  let released ← getField item "released"
  let tmdb ← access3 item "movie" "ids" "tmdb"
  pure (Value.obj [("type", .str "movie"), ("title", title), ("year", year),
    ("released", released),
    ("tmdb_id", jsOr tmdb .null), ("media_type", .str "movie")])

/-- The mapper of the recommended shows slot (IDX_6); `item.rating ? ... : null`
is a truthiness test, so a rating of `0` maps to `null`. -/
def recommendedShowsItem (item : Value) : Except String Value := do
  let title ← getField item "title"
  let year ← getField item "year"
  let rating ← getField item "rating"
  let network ← getField item "network"
  let tmdb ← access2 item "ids" "tmdb"
  pure (Value.obj [("type", .str "show"), ("title", title), ("year", year),
    ("rating", if truthy rating then
        jsDiv (mathRound (jsMul rating (.num 10))) (.num 10) else .null),
    ("network", network),
    ("tmdb_id", jsOr tmdb .null), ("media_type", .str "show")])

/-- The mapper of the recommended movies slot (IDX_7): note that the entity's
title and year are the record's top-level fields, while the key used for
deduplication (`getMovieKey`) reads the nested `movie` object. -/
def recommendedMoviesItem (item : Value) : Except String Value := do
  let title ← getField item "title"
  let year ← getField item "year"
  let rating ← getField item "rating"
  let tmdb ← access2 item "ids" "tmdb"
  pure (Value.obj [("type", .str "movie"), ("title", title), ("year", year),
    ("rating", if truthy rating then
        jsDiv (mathRound (jsMul rating (.num 10))) (.num 10) else .null),
    ("tmdb_id", jsOr tmdb .null), ("media_type", .str "movie")])

/-- One iteration of a Map-based deduplication loop
(`if (!map.has(key)) map.set(key, mapItem(item))`): the key is computed first,
the record is mapped only when its key is unseen, and insertion order is the
order of first appearance. -/
def dedupStep (key : Value → Except String String)
    (mapItem : Value → Except String Value)
    (acc : List (String × Value)) (item : Value) :
    Except String (List (String × Value)) := do
  let k ← key item
  if acc.any (fun p => p.1 == k) then
    pure acc
  else do
    let v ← mapItem item
    pure (acc ++ [(k, v)])

/-- The whole `forEach` deduplication loop, producing the Map's entries in
insertion order. -/
def dedupEntries (key : Value → Except String String)
    (mapItem : Value → Except String Value) (items : List Value) :
    Except String (List (String × Value)) :=
  items.foldlM (dedupStep key mapItem) []

/-- `Array.from(map.values())`. -/
def dedupValues (key : Value → Except String String)
    (mapItem : Value → Except String Value) (items : List Value) :
    Except String (List Value) := do
  let entries ← dedupEntries key mapItem items
  pure (entries.map Prod.snd)

/-- Iterating a value with `.map`/`.forEach`: anything but an array throws a
TypeError. -/
def asIterable : Value → Except String (List Value)
  | .arr xs => .ok xs
  | _ => .error "TypeError: not a function"

/-- `(input.SLOT?.data || [])`, followed by iterating with `.map`/`.forEach`. -/
def slotItems (input : Value) (slot : String) : Except String (List Value) := do
  let s ← getField input slot
  asIterable (jsOr (optField s "data") (.arr []))

/-- `episodesInProgress` (slot IDX_0). -/
def episodesInProgress (input : Value) : Except String (List Value) := do
  let items ← slotItems input "IDX_0"
  items.mapM episodesInProgressItem

/-- `moviesInProgress` (slot IDX_1). -/
def moviesInProgress (input : Value) : Except String (List Value) := do
  let items ← slotItems input "IDX_1"
  items.mapM moviesInProgressItem

/-- `recentEpisodes` (slot IDX_2, deduplicated by episode key). -/
def recentEpisodes (input : Value) : Except String (List Value) := do
  let items ← slotItems input "IDX_2"
  dedupValues getEpisodeKey recentEpisodesItem items

/-- `recentMovies` (slot IDX_3, deduplicated by movie key). -/
def recentMovies (input : Value) : Except String (List Value) := do
  let items ← slotItems input "IDX_3"
  dedupValues getMovieKey recentMoviesItem items

/-- `upcomingShows` (slot IDX_4, deduplicated by episode key). -/
def upcomingShows (input : Value) : Except String (List Value) := do
  let items ← slotItems input "IDX_4"
  dedupValues getEpisodeKey upcomingShowsItem items

/-- `upcomingMovies` (slot IDX_5, deduplicated by movie key). -/
def upcomingMovies (input : Value) : Except String (List Value) := do
  let items ← slotItems input "IDX_5"
  dedupValues getMovieKey upcomingMoviesItem items

/-- `recommendedShows` (slot IDX_6, deduplicated by show key). -/
def recommendedShows (input : Value) : Except String (List Value) := do
  let items ← slotItems input "IDX_6"
  dedupValues getShowKey recommendedShowsItem items

/-- `recommendedMovies` (slot IDX_7, deduplicated by movie key). -/
def recommendedMovies (input : Value) : Except String (List Value) := do
  let items ← slotItems input "IDX_7"
  dedupValues getMovieKey recommendedMoviesItem items

/-- The configured backend URL constant. -/
def IMAGE_BASE_URL : String := ""

/-- The `counts` object of the output. -/
structure Counts where
  continue_watching : Nat
  recently_watched : Nat
  upcoming : Nat
  recommended : Nat
  deriving Repr, DecidableEq

/-- The `data` object returned by `transform`. -/
structure OutputData where
  image_base_url : String
  continue_watching : List Value
  recently_watched : List Value
  upcoming : List Value
  recommended : List Value
  fetched_at : String
  has_content : Bool
  counts : Counts
  deriving Repr

/-- The transformation.  `now` stands for `new Date().toISOString()`, the one
read of the wall clock. -/
def transform (now : String) (input : Value) : Except String OutputData := do
  let eip ← episodesInProgress input
  let mip ← moviesInProgress input
  let recE ← recentEpisodes input
  let recM ← recentMovies input
  let upS ← upcomingShows input
  let upM ← upcomingMovies input
  let rcS ← recommendedShows input
  let rcM ← recommendedMovies input
  let continueWatching := (eip ++ mip).take 5
  let recentlyWatched := (recE ++ recM).take 10
  let upcoming := (upS ++ upM).take 10
  let recommended := (rcS ++ rcM).take 10
  pure {
    image_base_url := IMAGE_BASE_URL
    continue_watching := continueWatching
    recently_watched := recentlyWatched
    upcoming := upcoming
    recommended := recommended
    fetched_at := now
    has_content := decide (continueWatching.length > 0) ||
      decide (recentlyWatched.length > 0) ||
      decide (upcoming.length > 0) ||
      decide (recommended.length > 0)
    counts := {
      continue_watching := continueWatching.length
      recently_watched := recentlyWatched.length
      upcoming := upcoming.length
      recommended := recommended.length } }

/-! ### Specification vocabulary -/

/-- `i` is the first record of `items` whose key evaluates to `k`. -/
def FirstWithKey (key : Value → Except String String)
    (items : List Value) (k : String) (i : Value) : Prop :=
  ∃ pre post, items = pre ++ i :: post ∧ key i = Except.ok k ∧
    ∀ j ∈ pre, key j ≠ Except.ok k

/-- The eight slot names of the input mapping. -/
def slotNames : List String :=
  ["IDX_0", "IDX_1", "IDX_2", "IDX_3", "IDX_4", "IDX_5", "IDX_6", "IDX_7"]

/-- A slot's `data` value that every iteration of the program can process
without a TypeError: an array of non-nullish records, or any falsy value
(which `|| []` replaces by the empty array). -/
def goodData : Value → Bool
  | .arr xs => xs.all (fun v => !nullish v)
  | v => !truthy v

/-! ### Concrete records used to instantiate the claims -/

/-- Slot-2 record: show X, S1E1, first watch. -/
def c1r1 : Value := Value.obj [
  ("show", .obj [("title", .str "X")]),
  ("episode", .obj [("season", .num 1), ("number", .num 1), ("title", .str "E1")]),
  ("watched_at", .str "2024-01-01")]

/-- Slot-2 record: show X, S1E1 again with a different `watched_at`. -/
def c1r2 : Value := Value.obj [
  ("show", .obj [("title", .str "X")]),
  ("episode", .obj [("season", .num 1), ("number", .num 1), ("title", .str "E1")]),
  ("watched_at", .str "2024-01-02")]

/-- Slot-2 record: show X, S1E2. -/
def c1r3 : Value := Value.obj [
  ("show", .obj [("title", .str "X")]),
  ("episode", .obj [("season", .num 1), ("number", .num 2), ("title", .str "E2")]),
  ("watched_at", .str "2024-01-03")]

/-- Input with slot 2 holding the three records of the specification's
grouping example. -/
def c1input : Value := .obj [("IDX_2", .obj [("data", .arr [c1r1, c1r2, c1r3])])]

/-- Slot-7 record with top-level title and year but no nested movie object. -/
def bareMovie1 : Value := Value.obj [("title", .str "Alpha"), ("year", .num 2001)]

/-- A second slot-7 record with different top-level fields and no nested
movie object. -/
def bareMovie2 : Value := Value.obj [("title", .str "Beta"), ("year", .num 2002)]

/-- A recommended-show record with rating 7.83. -/
def ratedShow : Value :=
  Value.obj [("title", .str "A"), ("year", .num 2020), ("rating", .num (783/100))]

/-- Input with slot 6 holding `ratedShow`. -/
def ratedInput : Value := .obj [("IDX_6", .obj [("data", .arr [ratedShow])])]

/-- A recommended-movie record whose rating is present and equal to 0. -/
def zeroRatedMovie : Value :=
  Value.obj [("title", .str "M"), ("year", .num 2020), ("rating", .num 0)]

/-- Input with slot 7 holding `zeroRatedMovie`. -/
def zeroRatedInput : Value := .obj [("IDX_7", .obj [("data", .arr [zeroRatedMovie])])]

/-- A slot-2 record whose `show` object is absent entirely. -/
def noShowRecord : Value := Value.obj [
  ("episode", .obj [("season", .num 1), ("number", .num 1), ("title", .str "E1")]),
  ("watched_at", .str "2024-01-01")]

/-- Input with slot 2 holding `noShowRecord`. -/
def noShowInput : Value := .obj [("IDX_2", .obj [("data", .arr [noShowRecord])])]

/-- Recently-watched movie record, first watch, with a tmdb id. -/
def dupMovie1 : Value := Value.obj [
  ("movie", .obj [("title", .str "M"), ("year", .num 2020),
    ("ids", .obj [("tmdb", .num 7)])]),
  ("watched_at", .str "2024-01-01")]

/-- The same movie watched again: same key, different field values. -/
def dupMovie2 : Value := Value.obj [
  ("movie", .obj [("title", .str "M"), ("year", .num 2020)]),
  ("watched_at", .str "2024-02-02")]

/-- The single entity the deduplicator produces from
`[dupMovie1, dupMovie2]`: every field comes from `dupMovie1`. -/
def dupEntry : Value := Value.obj [("type", .str "movie"),
  ("title", .str "M"), ("year", .num 2020),
  ("watched_at", .str "2024-01-01"), ("tmdb_id", .num 7),
  ("media_type", .str "movie")]

/-- The first flat episode entry the program produces from `c1input`. -/
def c1entry1 : Value := Value.obj [("type", .str "episode"), ("show", .str "X"),
  ("season", .num 1), ("episode", .num 1), ("title", .str "E1"),
  ("watched_at", .str "2024-01-01"), ("tmdb_id", .null), ("media_type", .str "show")]

/-- The second flat episode entry the program produces from `c1input`. -/
def c1entry2 : Value := Value.obj [("type", .str "episode"), ("show", .str "X"),
  ("season", .num 1), ("episode", .num 2), ("title", .str "E2"),
  ("watched_at", .str "2024-01-03"), ("tmdb_id", .null), ("media_type", .str "show")]

/-- The output document of `transform "2024-01-01T00:00:00.000Z" c1input`. -/
def c1out : OutputData := {
  image_base_url := ""
  continue_watching := []
  recently_watched := [c1entry1, c1entry2]
  upcoming := []
  recommended := []
  fetched_at := "2024-01-01T00:00:00.000Z"
  has_content := true
  counts := { continue_watching := 0, recently_watched := 2,
              upcoming := 0, recommended := 0 } }

/-- The output document of `transform "2024-02-02T00:00:00.000Z" c1input`:
identical to `c1out` except for the timestamp. -/
def c1out2 : OutputData := {
  image_base_url := ""
  continue_watching := []
  recently_watched := [c1entry1, c1entry2]
  upcoming := []
  recommended := []
  fetched_at := "2024-02-02T00:00:00.000Z"
  has_content := true
  counts := { continue_watching := 0, recently_watched := 2,
              upcoming := 0, recommended := 0 } }

/-! ### Inversion and evaluation lemmas -/

theorem bind_ok_inv {α β : Type} {x : Except String α} {f : α → Except String β}
    {b : β} (h : x >>= f = Except.ok b) :
    ∃ a, x = Except.ok a ∧ f a = Except.ok b := by
  cases x with
  | error e => simp [Bind.bind, Except.bind] at h
  | ok a => exact ⟨a, rfl, by simpa [Bind.bind, Except.bind] using h⟩

theorem pure_ok_inv {α : Type} {a b : α}
    (h : (pure a : Except String α) = Except.ok b) : a = b :=
  Except.ok.inj h

theorem getField_eq {v : Value} (h : nullish v = false) (k : String) :
    getField v k = Except.ok (optField v k) := by
  simp [getField, h]

theorem getEpisodeKey_eq {item : Value} (h : nullish item = false) :
    getEpisodeKey item = Except.ok (
      jsToString (optField (optField item "show") "title") ++ "-" ++
      jsToString (optField (optField item "episode") "season") ++ "-" ++
      jsToString (optField (optField item "episode") "number")) := by
  simp only [getEpisodeKey, access2, getField_eq h]
  rfl

theorem getMovieKey_eq {item : Value} (h : nullish item = false) :
    getMovieKey item = Except.ok (
      jsToString (optField (optField item "movie") "title") ++ "-" ++
      jsToString (optField (optField item "movie") "year")) := by
  simp only [getMovieKey, access2, getField_eq h]
  rfl

theorem getShowKey_eq {item : Value} (h : nullish item = false) :
    getShowKey item = Except.ok (jsToString (optField item "title")) := by
  simp only [getShowKey, getField_eq h]
  rfl

theorem episodesInProgressItem_eq {item : Value} (h : nullish item = false) :
    episodesInProgressItem item = Except.ok (Value.obj [("type", .str "episode"),
      ("show", optField (optField item "show") "title"),
      ("season", optField (optField item "episode") "season"),
      ("episode", optField (optField item "episode") "number"),
      ("title", optField (optField item "episode") "title"),
      ("progress", mathRound (optField item "progress")),
      ("paused_at", optField item "paused_at"),
      ("tmdb_id", jsOr (optField (optField (optField item "show") "ids") "tmdb") .null),
      ("media_type", .str "show")]) := by
  simp only [episodesInProgressItem, access2, access3, getField_eq h]
  rfl

theorem moviesInProgressItem_eq {item : Value} (h : nullish item = false) :
    moviesInProgressItem item = Except.ok (Value.obj [("type", .str "movie"),
      ("title", optField (optField item "movie") "title"),
      ("year", optField (optField item "movie") "year"),
      ("progress", mathRound (optField item "progress")),
      ("paused_at", optField item "paused_at"),
      ("tmdb_id", jsOr (optField (optField (optField item "movie") "ids") "tmdb") .null),
      ("media_type", .str "movie")]) := by
  simp only [moviesInProgressItem, access2, access3, getField_eq h]
  rfl

theorem recentEpisodesItem_eq {item : Value} (h : nullish item = false) :
    recentEpisodesItem item = Except.ok (Value.obj [("type", .str "episode"),
      ("show", optField (optField item "show") "title"),
      ("season", optField (optField item "episode") "season"),
      ("episode", optField (optField item "episode") "number"),
      ("title", optField (optField item "episode") "title"),
      ("watched_at", optField item "watched_at"),
      ("tmdb_id", jsOr (optField (optField (optField item "show") "ids") "tmdb") .null),
      ("media_type", .str "show")]) := by
  simp only [recentEpisodesItem, access2, access3, getField_eq h]
  rfl

theorem recentMoviesItem_eq {item : Value} (h : nullish item = false) :
    recentMoviesItem item = Except.ok (Value.obj [("type", .str "movie"),
      ("title", optField (optField item "movie") "title"),
      ("year", optField (optField item "movie") "year"),
      ("watched_at", optField item "watched_at"),
      ("tmdb_id", jsOr (optField (optField (optField item "movie") "ids") "tmdb") .null),
      ("media_type", .str "movie")]) := by
  simp only [recentMoviesItem, access2, access3, getField_eq h]
  rfl

theorem upcomingShowsItem_eq {item : Value} (h : nullish item = false) :
    upcomingShowsItem item = Except.ok (Value.obj [("type", .str "episode"),
      ("show", optField (optField item "show") "title"),
      ("season", optField (optField item "episode") "season"),
      ("episode", optField (optField item "episode") "number"),
      ("title", optField (optField item "episode") "title"),
      ("airs_at", optField item "first_aired"),
      ("tmdb_id", jsOr (optField (optField (optField item "show") "ids") "tmdb") .null),
      ("media_type", .str "show")]) := by
  simp only [upcomingShowsItem, access2, access3, getField_eq h]
  rfl

theorem upcomingMoviesItem_eq {item : Value} (h : nullish item = false) :
    upcomingMoviesItem item = Except.ok (Value.obj [("type", .str "movie"),
      ("title", optField (optField item "movie") "title"),
      ("year", optField (optField item "movie") "year"),
      ("released", optField item "released"),
      ("tmdb_id", jsOr (optField (optField (optField item "movie") "ids") "tmdb") .null),
      ("media_type", .str "movie")]) := by
  simp only [upcomingMoviesItem, access2, access3, getField_eq h]
  rfl

theorem recommendedShowsItem_eq {item : Value} (h : nullish item = false) :
    recommendedShowsItem item = Except.ok (Value.obj [("type", .str "show"),
      ("title", optField item "title"),
      ("year", optField item "year"),
      ("rating", if truthy (optField item "rating") then
          jsDiv (mathRound (jsMul (optField item "rating") (.num 10))) (.num 10)
        else .null),
      ("network", optField item "network"),
      ("tmdb_id", jsOr (optField (optField item "ids") "tmdb") .null),
      ("media_type", .str "show")]) := by
  simp only [recommendedShowsItem, access2, getField_eq h]
  rfl

theorem recommendedMoviesItem_eq {item : Value} (h : nullish item = false) :
    recommendedMoviesItem item = Except.ok (Value.obj [("type", .str "movie"),
      ("title", optField item "title"),
      ("year", optField item "year"),
      ("rating", if truthy (optField item "rating") then
          jsDiv (mathRound (jsMul (optField item "rating") (.num 10))) (.num 10)
        else .null),
      ("tmdb_id", jsOr (optField (optField item "ids") "tmdb") .null),
      ("media_type", .str "movie")]) := by
  simp only [recommendedMoviesItem, access2, getField_eq h]
  rfl

@[simp] theorem ok_bind {α β : Type} (a : α) (f : α → Except String β) :
    (Except.ok a >>= f) = f a := rfl

@[simp] theorem error_bind {α β : Type} (e : String) (f : α → Except String β) :
    ((Except.error e : Except String α) >>= f) = Except.error e := rfl

@[simp] theorem pure_eq_ok {α : Type} (a : α) :
    (pure a : Except String α) = Except.ok a := rfl

/-- Successful runs of `transform` decompose into successful runs of the eight
slot pipelines, and the output is exactly the assembled record. -/
theorem transform_ok_inv {now : String} {input : Value} {out : OutputData}
    (h : transform now input = Except.ok out) :
    ∃ eip mip recE recM upS upM rcS rcM,
      episodesInProgress input = Except.ok eip ∧
      moviesInProgress input = Except.ok mip ∧
      recentEpisodes input = Except.ok recE ∧
      recentMovies input = Except.ok recM ∧
      upcomingShows input = Except.ok upS ∧
      upcomingMovies input = Except.ok upM ∧
      recommendedShows input = Except.ok rcS ∧
      recommendedMovies input = Except.ok rcM ∧
      out = { image_base_url := IMAGE_BASE_URL
              continue_watching := (eip ++ mip).take 5
              recently_watched := (recE ++ recM).take 10
              upcoming := (upS ++ upM).take 10
              recommended := (rcS ++ rcM).take 10
              fetched_at := now
              has_content := decide (((eip ++ mip).take 5).length > 0) ||
                decide (((recE ++ recM).take 10).length > 0) ||
                decide (((upS ++ upM).take 10).length > 0) ||
                decide (((rcS ++ rcM).take 10).length > 0)
              counts := { continue_watching := ((eip ++ mip).take 5).length
                          recently_watched := ((recE ++ recM).take 10).length
                          upcoming := ((upS ++ upM).take 10).length
                          recommended := ((rcS ++ rcM).take 10).length } } := by
  unfold transform at h
  obtain ⟨eip, h1, h⟩ := bind_ok_inv h
  obtain ⟨mip, h2, h⟩ := bind_ok_inv h
  obtain ⟨recE, h3, h⟩ := bind_ok_inv h
  obtain ⟨recM, h4, h⟩ := bind_ok_inv h
  obtain ⟨upS, h5, h⟩ := bind_ok_inv h
  obtain ⟨upM, h6, h⟩ := bind_ok_inv h
  obtain ⟨rcS, h7, h⟩ := bind_ok_inv h
  obtain ⟨rcM, h8, h⟩ := bind_ok_inv h
  exact ⟨eip, mip, recE, recM, upS, upM, rcS, rcM, h1, h2, h3, h4, h5, h6, h7, h8,
    (pure_ok_inv h).symm⟩

/-! ### Totality on well-formed inputs -/

theorem asIterable_jsOr_ok {v : Value} (hgood : goodData v = true) :
    ∃ xs, asIterable (jsOr v (.arr [])) = Except.ok xs ∧
      ∀ x ∈ xs, nullish x = false := by
  cases v with
  | arr xs =>
      refine ⟨xs, by simp [asIterable, jsOr, truthy], ?_⟩
      simpa [goodData] using hgood
  | null => exact ⟨[], rfl, by simp⟩
  | undef => exact ⟨[], rfl, by simp⟩
  | nan => exact ⟨[], rfl, by simp⟩
  | bool b =>
      have hb : b = false := by simpa [goodData, truthy] using hgood
      subst hb
      exact ⟨[], rfl, by simp⟩
  | num q =>
      have hq : q = 0 := by simpa [goodData, truthy] using hgood
      subst hq
      exact ⟨[], by simp [asIterable, jsOr, truthy], by simp⟩
  | str s =>
      have hs : s = "" := by simpa [goodData, truthy] using hgood
      subst hs
      exact ⟨[], by simp [asIterable, jsOr, truthy], by simp⟩
  | obj fields => simp [goodData, truthy] at hgood

theorem slotItems_ok {input : Value} (h0 : nullish input = false) {slot : String}
    (hgood : goodData (optField (optField input slot) "data") = true) :
    ∃ xs, slotItems input slot = Except.ok xs ∧ ∀ v ∈ xs, nullish v = false := by
  obtain ⟨xs, hx, hn⟩ := asIterable_jsOr_ok hgood
  refine ⟨xs, ?_, hn⟩
  unfold slotItems
  rw [getField_eq h0]
  simpa using hx

theorem mapM_ok {f : Value → Except String Value} :
    ∀ {xs : List Value}, (∀ x ∈ xs, ∃ v, f x = Except.ok v) →
      ∃ ys, xs.mapM f = Except.ok ys := by
  intro xs
  induction xs with
  | nil => exact fun _ => ⟨[], rfl⟩
  | cons x rest ih =>
      intro h
      obtain ⟨v, hv⟩ := h x (List.mem_cons_self x rest)
      obtain ⟨ys, hys⟩ := ih fun y hy => h y (List.mem_cons_of_mem _ hy)
      have hys2 : List.mapM.loop f rest [] = Except.ok ys := hys
      exact ⟨v :: ys, by rw [List.mapM_cons, hv]; simp [hys2]⟩

theorem dedupStep_seen {key : Value → Except String String}
    {mapItem : Value → Except String Value} (acc : List (String × Value))
    {i : Value} {s : String} (hs : key i = Except.ok s)
    (hseen : acc.any (fun p => p.1 == s) = true) :
    dedupStep key mapItem acc i = Except.ok acc := by
  simp [dedupStep, hs, hseen]

theorem dedupStep_unseen {key : Value → Except String String}
    {mapItem : Value → Except String Value} (acc : List (String × Value))
    {i : Value} {s : String} {v : Value} (hs : key i = Except.ok s)
    (hseen : acc.any (fun p => p.1 == s) = false)
    (hv : mapItem i = Except.ok v) :
    dedupStep key mapItem acc i = Except.ok (acc ++ [(s, v)]) := by
  simp [dedupStep, hs, hseen, hv]

theorem dedupFoldlM_ok {key : Value → Except String String}
    {mapItem : Value → Except String Value} :
    ∀ {items : List Value} (acc : List (String × Value)),
      (∀ i ∈ items, ∃ s, key i = Except.ok s) →
      (∀ i ∈ items, ∃ v, mapItem i = Except.ok v) →
      ∃ entries, List.foldlM (dedupStep key mapItem) acc items =
        Except.ok entries := by
  intro items
  induction items with
  | nil => exact fun acc _ _ => ⟨acc, rfl⟩
  | cons i rest ih =>
      intro acc hk hm
      obtain ⟨s, hs⟩ := hk i (List.mem_cons_self i rest)
      obtain ⟨v, hv⟩ := hm i (List.mem_cons_self i rest)
      have hk2 := fun j hj => hk j (List.mem_cons_of_mem _ hj)
      have hm2 := fun j hj => hm j (List.mem_cons_of_mem _ hj)
      cases hseen : acc.any (fun p => p.1 == s) with
      | true =>
          obtain ⟨entries, he⟩ := ih acc hk2 hm2
          exact ⟨entries, by rw [List.foldlM_cons, dedupStep_seen acc hs hseen]; simp [he]⟩
      | false =>
          obtain ⟨entries, he⟩ := ih (acc ++ [(s, v)]) hk2 hm2
          exact ⟨entries, by rw [List.foldlM_cons, dedupStep_unseen acc hs hseen hv]; simp [he]⟩

theorem dedupValues_ok {key : Value → Except String String}
    {mapItem : Value → Except String Value} {items : List Value}
    (hk : ∀ i ∈ items, ∃ s, key i = Except.ok s)
    (hm : ∀ i ∈ items, ∃ v, mapItem i = Except.ok v) :
    ∃ vals, dedupValues key mapItem items = Except.ok vals := by
  obtain ⟨entries, he⟩ := dedupFoldlM_ok [] hk hm
  exact ⟨entries.map Prod.snd, by simp [dedupValues, dedupEntries, he]⟩

/-! ### The first-occurrence-wins specification of the deduplicator -/

theorem mem_keys_of_any_eq_true {acc : List (String × Value)} {k : String}
    (h : acc.any (fun p => p.1 == k) = true) : k ∈ acc.map Prod.fst := by
  obtain ⟨p, hp, hbeq⟩ := List.any_eq_true.mp h
  exact List.mem_map.mpr ⟨p, hp, eq_of_beq hbeq⟩

theorem not_mem_keys_of_any_eq_false {acc : List (String × Value)} {k : String}
    (h : acc.any (fun p => p.1 == k) = false) : k ∉ acc.map Prod.fst := by
  intro hk
  obtain ⟨p, hp, hpk⟩ := List.mem_map.mp hk
  have htrue : acc.any (fun p => p.1 == k) = true :=
    List.any_eq_true.mpr ⟨p, hp, by simp [hpk]⟩
  rw [h] at htrue
  exact Bool.false_ne_true htrue

theorem firstWithKey_cons {key : Value → Except String String}
    {rest : List Value} {k : String} {i j : Value}
    (hj : key j ≠ Except.ok k) (h : FirstWithKey key rest k i) :
    FirstWithKey key (j :: rest) k i := by
  obtain ⟨pre, post, hsplit, hk, hpre⟩ := h
  refine ⟨j :: pre, post, by rw [hsplit]; rfl, hk, ?_⟩
  intro x hx
  rcases List.mem_cons.mp hx with hxe | hxm
  · subst hxe; exact hj
  · exact hpre x hxm

theorem forall₂_mem_left {α β : Type} {R : α → β → Prop} :
    ∀ {l₁ : List α} {l₂ : List β}, List.Forall₂ R l₁ l₂ →
      ∀ a ∈ l₁, ∃ b ∈ l₂, R a b := by
  intro l₁ l₂ h
  induction h with
  | nil => intro a ha; simp at ha
  | cons hr ht ih =>
      intro a ha
      rcases List.mem_cons.mp ha with rfl | hm
      · exact ⟨_, List.mem_cons_self _ _, hr⟩
      · obtain ⟨b, hb, hrb⟩ := ih a hm
        exact ⟨b, List.mem_cons_of_mem _ hb, hrb⟩

/-- Invariant of the deduplication fold: relative to an accumulator, the
result extends it with entries whose keys are new and pairwise distinct;
the new entries correspond one-to-one and IN ORDER (`List.Forall₂`) to a
subsequence of the remaining records, each being the first record carrying
its key, mapped; and every key occurring in the remaining records ends up
in the result. -/
theorem dedupFoldlM_spec {key : Value → Except String String}
    {mapItem : Value → Except String Value} :
    ∀ (items : List Value) (acc entries : List (String × Value)),
      List.foldlM (dedupStep key mapItem) acc items = Except.ok entries →
      ((acc.map Prod.fst).Nodup → (entries.map Prod.fst).Nodup) ∧
      (∃ ext reps, entries = acc ++ ext ∧ List.Sublist reps items ∧
        List.Forall₂ (fun p i => p.1 ∉ acc.map Prod.fst ∧
          FirstWithKey key items p.1 i ∧ mapItem i = Except.ok p.2) ext reps) ∧
      (∀ i ∈ items, ∀ k, key i = Except.ok k → k ∈ entries.map Prod.fst) := by
  intro items
  induction items with
  | nil =>
      intro acc entries h
      have hae : acc = entries := by simpa using h
      subst hae
      exact ⟨id, ⟨[], [], by simp, List.nil_sublist [], List.Forall₂.nil⟩, by simp⟩
  | cons i rest ih =>
      intro acc entries h
      rw [List.foldlM_cons] at h
      obtain ⟨acc2, hstep, hrest⟩ := bind_ok_inv h
      unfold dedupStep at hstep
      obtain ⟨ki, hki, hif⟩ := bind_ok_inv hstep
      cases hseen : acc.any (fun p => p.1 == ki) with
      | true =>
          simp only [hseen, if_true, pure_eq_ok, Except.ok.injEq] at hif
          subst hif
          obtain ⟨ihnd, ⟨ext, reps, hext, hsub, hfa⟩, ihcomp⟩ := ih acc entries hrest
          refine ⟨ihnd, ⟨ext, reps, hext, hsub.cons i, ?_⟩, ?_⟩
          · refine hfa.imp fun p i2 hpi => ⟨hpi.1, firstWithKey_cons ?_ hpi.2.1, hpi.2.2⟩
            intro contra
            have hkip : ki = p.1 := Except.ok.inj (hki.symm.trans contra)
            exact hpi.1 (hkip ▸ mem_keys_of_any_eq_true hseen)
          · intro j hj k hk
            rcases List.mem_cons.mp hj with hje | hjm
            · subst hje
              have hkik : ki = k := Except.ok.inj (hki.symm.trans hk)
              subst hkik
              rw [hext]
              simp only [List.map_append, List.mem_append]
              exact Or.inl (mem_keys_of_any_eq_true hseen)
            · exact ihcomp j hjm k hk
      | false =>
          simp only [hseen, if_false, Bool.false_eq_true] at hif
          obtain ⟨v, hv, hpure⟩ := bind_ok_inv hif
          have hacc2 : acc ++ [(ki, v)] = acc2 := by simpa using hpure
          subst hacc2
          obtain ⟨ihnd, ⟨ext, reps, hext, hsub, hfa⟩, ihcomp⟩ :=
            ih (acc ++ [(ki, v)]) entries hrest
          have hkinot : ki ∉ acc.map Prod.fst :=
            not_mem_keys_of_any_eq_false hseen
          refine ⟨?_, ⟨(ki, v) :: ext, i :: reps, ?_, hsub.cons₂ i, ?_⟩, ?_⟩
          · intro hnd
            apply ihnd
            simp [List.nodup_append, hnd, hkinot]
          · rw [hext]
            simp
          · refine List.Forall₂.cons ⟨hkinot, ⟨[], rest, rfl, hki, by simp⟩, hv⟩ ?_
            refine hfa.imp fun p i2 hpi => ?_
            have hpnotacc : p.1 ∉ acc.map Prod.fst := by
              intro hmem2
              exact hpi.1 (by simp [hmem2])
            have hpki : p.1 ≠ ki := by
              intro he
              exact hpi.1 (by simp [he])
            refine ⟨hpnotacc, firstWithKey_cons ?_ hpi.2.1, hpi.2.2⟩
            intro contra
            exact hpki (Except.ok.inj (contra.symm.trans hki))
          · intro j hj k hk
            rcases List.mem_cons.mp hj with hje | hjm
            · subst hje
              have hkik : ki = k := Except.ok.inj (hki.symm.trans hk)
              subst hkik
              rw [hext]
              simp
            · exact ihcomp j hjm k hk

/-- Claim C5: for every batch and key function, the deduplicated entry list
has pairwise-distinct keys (exactly one output entity per key), every entity
is the mapping of the first record carrying its key (later duplicates are
discarded, even with different field values), and every key occurring in the
batch is represented.  All six deduplicated slots (2 through 7) are
instances of `dedupEntries`. -/
theorem claim_C5_first_wins (key : Value → Except String String)
    (mapItem : Value → Except String Value) {items : List Value}
    {entries : List (String × Value)}
    (h : dedupEntries key mapItem items = Except.ok entries) :
    (entries.map Prod.fst).Nodup ∧
    (∀ p ∈ entries, ∃ i, FirstWithKey key items p.1 i ∧
      mapItem i = Except.ok p.2) ∧
    (∀ i ∈ items, ∀ k, key i = Except.ok k → k ∈ entries.map Prod.fst) := by
  obtain ⟨hnd, ⟨ext, reps, hext, hsub, hfa⟩, hcomp⟩ :=
    dedupFoldlM_spec items [] entries h
  refine ⟨hnd (by simp), ?_, hcomp⟩
  intro p hp
  have hpe : p ∈ ext := by
    rw [hext] at hp
    simpa using hp
  obtain ⟨i, hi, hnotin, hfw, hok⟩ := forall₂_mem_left hfa p hpe
  exact ⟨i, hfw, hok⟩

/-- Witness for claim C5: two records with the same movie key collapse to a
single entity whose fields all come from the first record. -/
theorem claim_C5_witness :
    ([("M-2020", dupEntry)].map Prod.fst).Nodup ∧
    (∃ i, FirstWithKey getMovieKey [dupMovie1, dupMovie2] "M-2020" i ∧
      recentMoviesItem i = Except.ok dupEntry) := by
  obtain ⟨hnd, hmem, hcomp⟩ := claim_C5_first_wins getMovieKey recentMoviesItem
    (show dedupEntries getMovieKey recentMoviesItem [dupMovie1, dupMovie2] =
      Except.ok [("M-2020", dupEntry)] from rfl)
  exact ⟨hnd, hmem ("M-2020", dupEntry) (by simp)⟩

/-- Claim C2 (amended): the transformation never throws and produces an
output, provided the top-level input is not nullish and every slot's `data`
value is either falsy (degrading to the empty list) or an array of
non-nullish records; on such inputs every nested field access degrades to
the `undefined` sentinel instead of faulting.  The unrestricted claim is
refuted by `claim_C2_counterexample`. -/
theorem claim_C2_total_on_wellformed {now : String} {input : Value}
    (h0 : nullish input = false)
    (hgood : ∀ slot ∈ slotNames,
      goodData (optField (optField input slot) "data") = true) :
    ∃ out, transform now input = Except.ok out := by
  obtain ⟨xs0, h0s, h0n⟩ := slotItems_ok h0 (hgood "IDX_0" (by simp [slotNames]))
  obtain ⟨xs1, h1s, h1n⟩ := slotItems_ok h0 (hgood "IDX_1" (by simp [slotNames]))
  obtain ⟨xs2, h2s, h2n⟩ := slotItems_ok h0 (hgood "IDX_2" (by simp [slotNames]))
  obtain ⟨xs3, h3s, h3n⟩ := slotItems_ok h0 (hgood "IDX_3" (by simp [slotNames]))
  obtain ⟨xs4, h4s, h4n⟩ := slotItems_ok h0 (hgood "IDX_4" (by simp [slotNames]))
  obtain ⟨xs5, h5s, h5n⟩ := slotItems_ok h0 (hgood "IDX_5" (by simp [slotNames]))
  obtain ⟨xs6, h6s, h6n⟩ := slotItems_ok h0 (hgood "IDX_6" (by simp [slotNames]))
  obtain ⟨xs7, h7s, h7n⟩ := slotItems_ok h0 (hgood "IDX_7" (by simp [slotNames]))
  obtain ⟨eip, heip⟩ : ∃ l, episodesInProgress input = Except.ok l := by
    obtain ⟨ys, hys⟩ := mapM_ok fun x hx => ⟨_, episodesInProgressItem_eq (h0n x hx)⟩
    exact ⟨ys, by unfold episodesInProgress; rw [h0s]; simpa using hys⟩
  obtain ⟨mip, hmip⟩ : ∃ l, moviesInProgress input = Except.ok l := by
    obtain ⟨ys, hys⟩ := mapM_ok fun x hx => ⟨_, moviesInProgressItem_eq (h1n x hx)⟩
    exact ⟨ys, by unfold moviesInProgress; rw [h1s]; simpa using hys⟩
  obtain ⟨recE, hrecE⟩ : ∃ l, recentEpisodes input = Except.ok l := by
    obtain ⟨vs, hvs⟩ := dedupValues_ok
      (fun i hi => ⟨_, getEpisodeKey_eq (h2n i hi)⟩)
      (fun i hi => ⟨_, recentEpisodesItem_eq (h2n i hi)⟩)
    exact ⟨vs, by unfold recentEpisodes; rw [h2s]; simpa using hvs⟩
  obtain ⟨recM, hrecM⟩ : ∃ l, recentMovies input = Except.ok l := by
    obtain ⟨vs, hvs⟩ := dedupValues_ok
      (fun i hi => ⟨_, getMovieKey_eq (h3n i hi)⟩)
      (fun i hi => ⟨_, recentMoviesItem_eq (h3n i hi)⟩)
    exact ⟨vs, by unfold recentMovies; rw [h3s]; simpa using hvs⟩
  obtain ⟨upS, hupS⟩ : ∃ l, upcomingShows input = Except.ok l := by
    obtain ⟨vs, hvs⟩ := dedupValues_ok
      (fun i hi => ⟨_, getEpisodeKey_eq (h4n i hi)⟩)
      (fun i hi => ⟨_, upcomingShowsItem_eq (h4n i hi)⟩)
    exact ⟨vs, by unfold upcomingShows; rw [h4s]; simpa using hvs⟩
  obtain ⟨upM, hupM⟩ : ∃ l, upcomingMovies input = Except.ok l := by
    obtain ⟨vs, hvs⟩ := dedupValues_ok
      (fun i hi => ⟨_, getMovieKey_eq (h5n i hi)⟩)
      (fun i hi => ⟨_, upcomingMoviesItem_eq (h5n i hi)⟩)
    exact ⟨vs, by unfold upcomingMovies; rw [h5s]; simpa using hvs⟩
  obtain ⟨rcS, hrcS⟩ : ∃ l, recommendedShows input = Except.ok l := by
    obtain ⟨vs, hvs⟩ := dedupValues_ok
      (fun i hi => ⟨_, getShowKey_eq (h6n i hi)⟩)
      (fun i hi => ⟨_, recommendedShowsItem_eq (h6n i hi)⟩)
    exact ⟨vs, by unfold recommendedShows; rw [h6s]; simpa using hvs⟩
  obtain ⟨rcM, hrcM⟩ : ∃ l, recommendedMovies input = Except.ok l := by
    obtain ⟨vs, hvs⟩ := dedupValues_ok
      (fun i hi => ⟨_, getMovieKey_eq (h7n i hi)⟩)
      (fun i hi => ⟨_, recommendedMoviesItem_eq (h7n i hi)⟩)
    exact ⟨vs, by unfold recommendedMovies; rw [h7s]; simpa using hvs⟩
  refine ⟨{ image_base_url := IMAGE_BASE_URL
            continue_watching := (eip ++ mip).take 5
            recently_watched := (recE ++ recM).take 10
            upcoming := (upS ++ upM).take 10
            recommended := (rcS ++ rcM).take 10
            fetched_at := now
            has_content := decide (((eip ++ mip).take 5).length > 0) ||
              decide (((recE ++ recM).take 10).length > 0) ||
              decide (((upS ++ upM).take 10).length > 0) ||
              decide (((rcS ++ rcM).take 10).length > 0)
            counts := { continue_watching := ((eip ++ mip).take 5).length
                        recently_watched := ((recE ++ recM).take 10).length
                        upcoming := ((upS ++ upM).take 10).length
                        recommended := ((rcS ++ rcM).take 10).length } }, ?_⟩
  unfold transform
  rw [heip, hmip, hrecE, hrecM, hupS, hupM, hrcS, hrcM]
  simp only [ok_bind, pure_eq_ok]

/-- Claim C2 counterexample: on a nullish top-level input the function throws
a TypeError (the very first slot access `input.IDX_0` faults) instead of
degrading to an output with empty lists. -/
theorem claim_C2_counterexample :
    transform "2024-01-01T00:00:00.000Z" Value.null = Except.error "TypeError" := rfl

/-- Witness for claim C2: a concrete well-formed input on which the
transformation succeeds. -/
theorem claim_C2_witness :
    ∃ out, transform "2024-01-01T00:00:00.000Z" ratedInput = Except.ok out :=
  claim_C2_total_on_wellformed (by rfl) (by decide)

/-- Claim C4: each of the four output lists is the concatenation of its two
sub-lists (first sub-list first, internal order preserved) truncated to its
cap, so its length is `min cap (len1 + len2)`; the cap is 5 for
continue-watching and 10 for the other three sections. -/
theorem claim_C4_section_assembly {now : String} {input : Value}
    {out : OutputData} (h : transform now input = Except.ok out) :
    ∃ eip mip recE recM upS upM rcS rcM,
      episodesInProgress input = Except.ok eip ∧
      moviesInProgress input = Except.ok mip ∧
      recentEpisodes input = Except.ok recE ∧
      recentMovies input = Except.ok recM ∧
      upcomingShows input = Except.ok upS ∧
      upcomingMovies input = Except.ok upM ∧
      recommendedShows input = Except.ok rcS ∧
      recommendedMovies input = Except.ok rcM ∧
      out.continue_watching = (eip ++ mip).take 5 ∧
      out.continue_watching.length = min 5 (eip.length + mip.length) ∧
      out.recently_watched = (recE ++ recM).take 10 ∧
      out.recently_watched.length = min 10 (recE.length + recM.length) ∧
      out.upcoming = (upS ++ upM).take 10 ∧
      out.upcoming.length = min 10 (upS.length + upM.length) ∧
      out.recommended = (rcS ++ rcM).take 10 ∧
      out.recommended.length = min 10 (rcS.length + rcM.length) := by
  obtain ⟨eip, mip, recE, recM, upS, upM, rcS, rcM,
    h1, h2, h3, h4, h5, h6, h7, h8, hout⟩ := transform_ok_inv h
  subst hout
  exact ⟨eip, mip, recE, recM, upS, upM, rcS, rcM,
    h1, h2, h3, h4, h5, h6, h7, h8,
    rfl, by simp [List.length_take, List.length_append],
    rfl, by simp [List.length_take, List.length_append],
    rfl, by simp [List.length_take, List.length_append],
    rfl, by simp [List.length_take, List.length_append]⟩

/-- Witness for claim C4 at the concrete input `c1input`. -/
theorem claim_C4_witness :
    ∃ eip mip recE recM,
      episodesInProgress c1input = Except.ok eip ∧
      moviesInProgress c1input = Except.ok mip ∧
      recentEpisodes c1input = Except.ok recE ∧
      recentMovies c1input = Except.ok recM ∧
      c1out.continue_watching.length = min 5 (eip.length + mip.length) ∧
      c1out.recently_watched.length = min 10 (recE.length + recM.length) := by
  obtain ⟨eip, mip, recE, recM, upS, upM, rcS, rcM,
    h1, h2, h3, h4, h5, h6, h7, h8, hc, hcl, hr, hrl, hu, hul, hm, hml⟩ :=
    claim_C4_section_assembly
      (show transform "2024-01-01T00:00:00.000Z" c1input = Except.ok c1out from rfl)
  exact ⟨eip, mip, recE, recM, h1, h2, h3, h4, hcl, hrl⟩

/-- Claim C7: `has_content` is true iff at least one of the four output lists
is non-empty (equivalently, it is false iff all four are empty); empty input
for all eight slots yields `has_content = false`. -/
theorem claim_C7_has_content {now : String} {input : Value} {out : OutputData}
    (h : transform now input = Except.ok out) :
    (out.has_content = true ↔ (out.continue_watching ≠ [] ∨
      out.recently_watched ≠ [] ∨ out.upcoming ≠ [] ∨ out.recommended ≠ [])) ∧
    (out.has_content = false ↔ (out.continue_watching = [] ∧
      out.recently_watched = [] ∧ out.upcoming = [] ∧ out.recommended = [])) ∧
    (transform now (Value.obj [])).map OutputData.has_content =
      Except.ok false := by
  obtain ⟨eip, mip, recE, recM, upS, upM, rcS, rcM,
    _, _, _, _, _, _, _, _, hout⟩ := transform_ok_inv h
  subst hout
  refine ⟨?_, ?_, rfl⟩
  · simp only [Bool.or_eq_true, decide_eq_true_eq, List.length_pos,
      List.take_eq_nil_iff, List.append_eq_nil, ne_eq]
    tauto
  · simp only [Bool.or_eq_false_iff, decide_eq_false_iff_not, not_lt,
      Nat.le_zero, List.length_eq_zero, List.take_eq_nil_iff, List.append_eq_nil]
    tauto

/-- Witness for claim C7 at the concrete input `c1input`. -/
theorem claim_C7_witness :
    (c1out.has_content = true ↔ (c1out.continue_watching ≠ [] ∨
      c1out.recently_watched ≠ [] ∨ c1out.upcoming ≠ [] ∨
      c1out.recommended ≠ [])) ∧
    (c1out.has_content = false ↔ (c1out.continue_watching = [] ∧
      c1out.recently_watched = [] ∧ c1out.upcoming = [] ∧
      c1out.recommended = [])) :=
  ⟨(claim_C7_has_content
      (show transform "2024-01-01T00:00:00.000Z" c1input = Except.ok c1out
        from rfl)).1,
   (claim_C7_has_content
      (show transform "2024-01-01T00:00:00.000Z" c1input = Except.ok c1out
        from rfl)).2.1⟩

/-- Claim C8: each entry of the `counts` object equals the length of the
corresponding output list. -/
theorem claim_C8_counts {now : String} {input : Value} {out : OutputData}
    (h : transform now input = Except.ok out) :
    out.counts.continue_watching = out.continue_watching.length ∧
    out.counts.recently_watched = out.recently_watched.length ∧
    out.counts.upcoming = out.upcoming.length ∧
    out.counts.recommended = out.recommended.length := by
  obtain ⟨eip, mip, recE, recM, upS, upM, rcS, rcM,
    _, _, _, _, _, _, _, _, hout⟩ := transform_ok_inv h
  subst hout
  exact ⟨rfl, rfl, rfl, rfl⟩

/-- Witness for claim C8 at the concrete input `c1input`. -/
theorem claim_C8_witness :
    c1out.counts.continue_watching = c1out.continue_watching.length ∧
    c1out.counts.recently_watched = c1out.recently_watched.length ∧
    c1out.counts.upcoming = c1out.upcoming.length ∧
    c1out.counts.recommended = c1out.recommended.length :=
  claim_C8_counts
    (show transform "2024-01-01T00:00:00.000Z" c1input = Except.ok c1out from rfl)

/-- Claim C9: the transformation is deterministic apart from the timestamp:
two successful runs on the same input agree on every output field except
`fetched_at`, which is exactly the `now` parameter (the one wall-clock
read). -/
theorem claim_C9_deterministic {t1 t2 : String} {input : Value}
    {out1 out2 : OutputData}
    (h1 : transform t1 input = Except.ok out1)
    (h2 : transform t2 input = Except.ok out2) :
    out1.image_base_url = out2.image_base_url ∧
    out1.continue_watching = out2.continue_watching ∧
    out1.recently_watched = out2.recently_watched ∧
    out1.upcoming = out2.upcoming ∧
    out1.recommended = out2.recommended ∧
    out1.has_content = out2.has_content ∧
    out1.counts = out2.counts ∧
    out1.fetched_at = t1 ∧ out2.fetched_at = t2 := by
  obtain ⟨e1, m1, r1, q1, u1, v1, s1, w1,
    a1, a2, a3, a4, a5, a6, a7, a8, ho1⟩ := transform_ok_inv h1
  obtain ⟨e2, m2, r2, q2, u2, v2, s2, w2,
    b1, b2, b3, b4, b5, b6, b7, b8, ho2⟩ := transform_ok_inv h2
  obtain rfl : e1 = e2 := Except.ok.inj (a1.symm.trans b1)
  obtain rfl : m1 = m2 := Except.ok.inj (a2.symm.trans b2)
  obtain rfl : r1 = r2 := Except.ok.inj (a3.symm.trans b3)
  obtain rfl : q1 = q2 := Except.ok.inj (a4.symm.trans b4)
  obtain rfl : u1 = u2 := Except.ok.inj (a5.symm.trans b5)
  obtain rfl : v1 = v2 := Except.ok.inj (a6.symm.trans b6)
  obtain rfl : s1 = s2 := Except.ok.inj (a7.symm.trans b7)
  obtain rfl : w1 = w2 := Except.ok.inj (a8.symm.trans b8)
  subst ho1
  subst ho2
  exact ⟨rfl, rfl, rfl, rfl, rfl, rfl, rfl, rfl, rfl⟩

/-- Witness for claim C9: two runs on `c1input` with different timestamps. -/
theorem claim_C9_witness :
    c1out.continue_watching = c1out2.continue_watching ∧
    c1out.recently_watched = c1out2.recently_watched ∧
    c1out.upcoming = c1out2.upcoming ∧
    c1out.recommended = c1out2.recommended ∧
    c1out.has_content = c1out2.has_content ∧
    c1out.counts = c1out2.counts ∧
    c1out.fetched_at = "2024-01-01T00:00:00.000Z" ∧
    c1out2.fetched_at = "2024-02-02T00:00:00.000Z" := by
  obtain ⟨_, h2, h3, h4, h5, h6, h7, h8, h9⟩ := claim_C9_deterministic
    (show transform "2024-01-01T00:00:00.000Z" c1input = Except.ok c1out from rfl)
    (show transform "2024-02-02T00:00:00.000Z" c1input = Except.ok c1out2 from rfl)
  exact ⟨h2, h3, h4, h5, h6, h7, h8, h9⟩

/-- Claim C1 counterexample: on the specification's own example (slot 2
holding show X S1E1 twice and S1E2 once) the `recently_watched` list has TWO
elements, not the single ShowGroup entity the claim asserts; the program
never nests episodes under a parent-show entity. -/
theorem claim_C1_counterexample :
    ((transform "2024-01-01T00:00:00.000Z" c1input).map
      (fun o => o.recently_watched.length)) = Except.ok 2 ∧ (2 : Nat) ≠ 1 :=
  ⟨rfl, by decide⟩

/-- Claim C1 (amended): for EVERY input batch in slot 2 (taken through every
successful run of the transformation), the resulting sub-list is the flat
list of `recentEpisodesItem` entries of a subsequence of the batch, in
first-appearance order (`List.Sublist` of the batch paired entry-by-entry
via `List.Forall₂`), with pairwise-distinct show-season-episode keys and
with every entry produced from the FIRST record carrying its key (all
fields from the first occurrence); no ShowGroup nesting exists, and on the
specification's example the sub-list is the two flat entries S1E1 (first
record's watched_at) then S1E2, prepended to the slot-3 movies and capped
at 10. -/
theorem claim_C1_flat_first_appearance {now : String} {input : Value}
    {out : OutputData} (h : transform now input = Except.ok out) :
    (∃ items entries recM,
      slotItems input "IDX_2" = Except.ok items ∧
      dedupEntries getEpisodeKey recentEpisodesItem items = Except.ok entries ∧
      recentMovies input = Except.ok recM ∧
      out.recently_watched = (entries.map Prod.snd ++ recM).take 10 ∧
      (entries.map Prod.fst).Nodup ∧
      ∃ reps, List.Sublist reps items ∧
        List.Forall₂ (fun p i => FirstWithKey getEpisodeKey items p.1 i ∧
          recentEpisodesItem i = Except.ok p.2) entries reps) ∧
    (transform "2024-01-01T00:00:00.000Z" c1input).map
      (fun o => o.recently_watched) = Except.ok [c1entry1, c1entry2] := by
  refine ⟨?_, rfl⟩
  obtain ⟨eip, mip, recE, recM, upS, upM, rcS, rcM,
    h1, h2, h3, h4, h5, h6, h7, h8, hout⟩ := transform_ok_inv h
  unfold recentEpisodes at h3
  obtain ⟨items, hitems, hdv⟩ := bind_ok_inv h3
  unfold dedupValues at hdv
  obtain ⟨entries, hde, hsnd⟩ := bind_ok_inv hdv
  have hrecE : recE = entries.map Prod.snd := (pure_ok_inv hsnd).symm
  obtain ⟨hnd, ⟨ext, reps, hext, hsub, hfa⟩, hcomp⟩ :=
    dedupFoldlM_spec items [] entries hde
  have hexte : entries = ext := by simpa using hext
  subst hexte
  subst hout
  refine ⟨items, entries, recM, hitems, hde, h4, ?_, hnd (by simp),
    reps, hsub, ?_⟩
  · show List.take 10 (recE ++ recM) =
      List.take 10 (entries.map Prod.snd ++ recM)
    rw [hrecE]
  · exact hfa.imp fun p i hpi => ⟨hpi.2.1, hpi.2.2⟩

/-- Witness for claim C1: the universal statement applied at the concrete
input `c1input`. -/
theorem claim_C1_witness :
    ∃ items entries recM,
      slotItems c1input "IDX_2" = Except.ok items ∧
      dedupEntries getEpisodeKey recentEpisodesItem items = Except.ok entries ∧
      recentMovies c1input = Except.ok recM ∧
      c1out.recently_watched = (entries.map Prod.snd ++ recM).take 10 ∧
      (entries.map Prod.fst).Nodup ∧
      ∃ reps, List.Sublist reps items ∧
        List.Forall₂ (fun p i => FirstWithKey getEpisodeKey items p.1 i ∧
          recentEpisodesItem i = Except.ok p.2) entries reps :=
  (claim_C1_flat_first_appearance
    (show transform "2024-01-01T00:00:00.000Z" c1input = Except.ok c1out
      from rfl)).1

/-- Claim C6 counterexample: a slot-2 record without a show object produces
an entry whose show field is the undefined sentinel, not the literal
"Unknown"; no "Unknown" fallback exists in the program. -/
theorem claim_C6_counterexample :
    ((transform "2024-01-01T00:00:00.000Z" noShowInput).map
      (fun o => o.recently_watched.map (fun v => optField v "show"))) =
      Except.ok [Value.undef] ∧ Value.undef ≠ Value.str "Unknown" :=
  ⟨rfl, fun h => Value.noConfusion h⟩

/-- Claim C6 (amended): an episode record whose show (or show title) is
absent is NOT dropped by either episode-bearing sub-routine: the mapped
entry is still produced, with its show field set to the undefined sentinel
rather than to the literal "Unknown"; concretely, `noShowInput` yields one
`recently_watched` entry with an undefined show. -/
theorem claim_C6_absent_show_kept {item : Value} (h : nullish item = false)
    (hshow : optField (optField item "show") "title" = Value.undef) :
    (∃ v, recentEpisodesItem item = Except.ok v ∧
      optField v "show" = Value.undef) ∧
    (∃ v, upcomingShowsItem item = Except.ok v ∧
      optField v "show" = Value.undef) ∧
    ((transform "2024-01-01T00:00:00.000Z" noShowInput).map
      (fun o => (o.recently_watched.length,
        o.recently_watched.map (fun v => optField v "show")))) =
      Except.ok (1, [Value.undef]) := by
  refine ⟨⟨_, recentEpisodesItem_eq h, ?_⟩,
    ⟨_, upcomingShowsItem_eq h, ?_⟩, rfl⟩
  · rw [show optField (Value.obj [("type", .str "episode"),
      ("show", optField (optField item "show") "title"),
      ("season", optField (optField item "episode") "season"),
      ("episode", optField (optField item "episode") "number"),
      ("title", optField (optField item "episode") "title"),
      ("watched_at", optField item "watched_at"),
      ("tmdb_id", jsOr (optField (optField (optField item "show") "ids") "tmdb") .null),
      ("media_type", .str "show")]) "show" =
        optField (optField item "show") "title" from rfl, hshow]
  · rw [show optField (Value.obj [("type", .str "episode"),
      ("show", optField (optField item "show") "title"),
      ("season", optField (optField item "episode") "season"),
      ("episode", optField (optField item "episode") "number"),
      ("title", optField (optField item "episode") "title"),
      ("airs_at", optField item "first_aired"),
      ("tmdb_id", jsOr (optField (optField (optField item "show") "ids") "tmdb") .null),
      ("media_type", .str "show")]) "show" =
        optField (optField item "show") "title" from rfl, hshow]

/-- Witness for claim C6 at the concrete record `noShowRecord`. -/
theorem claim_C6_witness :
    ∃ v, recentEpisodesItem noShowRecord = Except.ok v ∧
      optField v "show" = Value.undef :=
  (claim_C6_absent_show_kept (by rfl) (by rfl)).1

/-- Claim C3 counterexample: a recommended-movie record whose rating is
present and equal to 0 produces a null output rating, not the claimed
`round(0*10)/10 = 0` (the source tests `item.rating` for truthiness, so a
zero rating falls into the null branch). -/
theorem claim_C3_counterexample :
    ((transform "2024-01-01T00:00:00.000Z" zeroRatedInput).map
      (fun o => o.recommended.map (fun v => optField v "rating"))) =
      Except.ok [Value.null] ∧
    Value.null ≠ Value.num (((round ((0 : ℚ) * 10) : ℤ) : ℚ) / 10) :=
  ⟨rfl, fun h => Value.noConfusion h⟩

/-- Claim C3 (amended): for recommended-show and recommended-movie records,
a present nonzero numeric rating is rounded to one decimal place
(`round(rating*10)/10`); a rating that is absent OR present-but-zero
(falsy) yields null.  The original claim fails only at a present rating of
0. -/
theorem claim_C3_rating_rule {item : Value} (h : nullish item = false) :
    (∀ q : ℚ, optField item "rating" = Value.num q → q ≠ 0 →
      (∃ v, recommendedShowsItem item = Except.ok v ∧
        optField v "rating" =
          Value.num (((round (q * 10) : ℤ) : ℚ) / 10)) ∧
      (∃ v, recommendedMoviesItem item = Except.ok v ∧
        optField v "rating" =
          Value.num (((round (q * 10) : ℤ) : ℚ) / 10))) ∧
    ((optField item "rating" = Value.num 0 ∨
        optField item "rating" = Value.undef) →
      (∃ v, recommendedShowsItem item = Except.ok v ∧
        optField v "rating" = Value.null) ∧
      (∃ v, recommendedMoviesItem item = Except.ok v ∧
        optField v "rating" = Value.null)) := by
  constructor
  · intro q hq hq0
    refine ⟨⟨_, recommendedShowsItem_eq h, ?_⟩,
      ⟨_, recommendedMoviesItem_eq h, ?_⟩⟩ <;>
    · show (if truthy (optField item "rating") then
          jsDiv (mathRound (jsMul (optField item "rating") (.num 10))) (.num 10)
        else .null) = Value.num (((round (q * 10) : ℤ) : ℚ) / 10)
      rw [hq]
      rw [show truthy (Value.num q) = true from by simp [truthy, hq0]]
      norm_num [jsMul, toNumber, mathRound, jsDiv]
  · intro hq
    refine ⟨⟨_, recommendedShowsItem_eq h, ?_⟩,
      ⟨_, recommendedMoviesItem_eq h, ?_⟩⟩ <;>
    · show (if truthy (optField item "rating") then
          jsDiv (mathRound (jsMul (optField item "rating") (.num 10))) (.num 10)
        else .null) = Value.null
      rcases hq with hq | hq <;> rw [hq] <;> simp [truthy]

/-- Witness for claim C3 at the concrete record `ratedShow` (rating 7.83,
which rounds to 7.8 = 78/10). -/
theorem claim_C3_witness :
    ∃ v, recommendedShowsItem ratedShow = Except.ok v ∧
      optField v "rating" =
        Value.num (((round ((783 / 100 : ℚ) * 10) : ℤ) : ℚ) / 10) :=
  ((claim_C3_rating_rule (by rfl)).1 (783 / 100) (by rfl) (by simp)).1

/-- Deduplicating a two-record batch whose records share one key keeps only
the first record's entity. -/
theorem dedupValues_pair_same_key {key : Value → Except String String}
    {mapItem : Value → Except String Value} {r1 r2 : Value} {k : String}
    {v1 : Value} (hk1 : key r1 = Except.ok k) (hk2 : key r2 = Except.ok k)
    (hv1 : mapItem r1 = Except.ok v1) :
    dedupValues key mapItem [r1, r2] = Except.ok [v1] := by
  unfold dedupValues dedupEntries
  rw [List.foldlM_cons, dedupStep_unseen [] hk1 rfl hv1]
  simp only [ok_bind, List.nil_append]
  rw [List.foldlM_cons, dedupStep_seen [(k, v1)] hk2 (by simp)]
  simp

/-- Claim C10: the recommended-movies deduplication key reads the nested
`movie.title`/`movie.year` while the produced entity reads the top-level
`title`/`year` of the same record; hence any record lacking a nested movie
object keys as "undefined-undefined", and of two such records in one batch
only the first record's top-level title and year reach the output. -/
theorem claim_C10_key_entity_mismatch :
    (∀ item : Value, nullish item = false →
      nullish (optField item "movie") = true →
      getMovieKey item = Except.ok "undefined-undefined") ∧
    (∀ r1 r2 : Value, nullish r1 = false → nullish r2 = false →
      nullish (optField r1 "movie") = true →
      nullish (optField r2 "movie") = true →
      ∃ v, dedupValues getMovieKey recommendedMoviesItem [r1, r2] =
          Except.ok [v] ∧
        optField v "title" = optField r1 "title" ∧
        optField v "year" = optField r1 "year") := by
  have key1 : ∀ item : Value, nullish item = false →
      nullish (optField item "movie") = true →
      getMovieKey item = Except.ok "undefined-undefined" := by
    intro item h hm
    rw [getMovieKey_eq h]
    have h1 : optField (optField item "movie") "title" = Value.undef := by
      cases hv : optField item "movie" <;> simp_all [nullish, optField]
    have h2 : optField (optField item "movie") "year" = Value.undef := by
      cases hv : optField item "movie" <;> simp_all [nullish, optField]
    rw [h1, h2]
    rfl
  refine ⟨key1, ?_⟩
  intro r1 r2 h1 h2 hm1 hm2
  refine ⟨_, dedupValues_pair_same_key (key1 r1 h1 hm1) (key1 r2 h2 hm2)
    (recommendedMoviesItem_eq h1), rfl, rfl⟩

/-- Witness for claim C10 at two concrete records without nested movie
objects. -/
theorem claim_C10_witness :
    ∃ v, dedupValues getMovieKey recommendedMoviesItem
        [bareMovie1, bareMovie2] = Except.ok [v] ∧
      optField v "title" = optField bareMovie1 "title" ∧
      optField v "year" = optField bareMovie1 "year" :=
  claim_C10_key_entity_mismatch.2 bareMovie1 bareMovie2
    (by rfl) (by rfl) (by rfl) (by rfl)

end Trakt
